import Mathlib

/-!
Verification of the proxy resolution core (`src/_proxy.ts`) of the
repository: `shouldBypassProxy`, `getProxyFromEnvironment`,
`proxyConfigToUrl`, `resolveProxyUrl` and `createProxyAgent`.

Modelling conventions (shallow embedding of the TypeScript source):

* JavaScript strings are modelled as lists of characters (`JStr`); the
  helper `str` turns a Lean string literal into that form.  All string
  primitives the source uses (`toLowerCase`, `trim`, `split(',')`,
  `startsWith`, `endsWith`, `substring(1)`) are given explicit
  character-list counterparts (`jsToLower`, `jsTrim`, `splitOnChar`,
  `jsStartsWith`, `jsEndsWith`, `List.drop 1`).
* The ambient execution context is an explicit `Env` value: whether
  `process.env` is reachable (`isNode`, the result of the function
  `isNodeEnvironment()` of the source) plus the variable table.
* JavaScript truthiness on `string | undefined` values (used by the
  source through `||` chains, `!noProxy`, and ternaries) is `jsTruthy`:
  `undefined` and the empty string are falsy.  `a || b` is `jsOr a b`.
* The WHATWG `new URL` parser is platform code outside the repository;
  it is passed in as a function `parse : JStr → Option UrlParts`
  (`none` models the `TypeError` thrown on an unparseable URL, and the
  record carries the `protocol` field scheme-with-colon, e.g. "https:",
  and the `hostname` field, exactly the two members the source reads).
  A thrown parse error surfaces as `Except.error ProxyError.InvalidURL`.
* The dynamic capability load of `createProxyAgent` (the deferred,
  awaited loading of the "undici" module) and the construction
  `new ProxyAgent(proxyUrl)` are external effects, modelled by an
  `UndiciWorld` record saying whether the import resolves and whether
  the constructor succeeds on a given URL string; the returned agent is
  represented by the proxy URL it is bound to, and `AgentRun` records
  whether a `console.warn` diagnostic was emitted and whether the call
  returned a value or let an exception escape.
-/

/-- A JavaScript string, modelled as a list of characters. -/
abbrev JStr := List Char

/-- Embed a Lean string literal as a `JStr`. -/
def str (s : String) : JStr := s.data

/-- JavaScript truthiness of a `string | undefined` value:
`undefined` and `""` are falsy, every other string is truthy. -/
def jsTruthy : Option JStr → Bool
  | none => false
  | some s => !s.isEmpty

/-- JavaScript `a || b` on `string | undefined` values: `a` when truthy,
otherwise `b`. -/
def jsOr (a b : Option JStr) : Option JStr :=
  if jsTruthy a then a else b

/-- JavaScript `s.toLowerCase()` (character-wise lowering). -/
def jsToLower (s : JStr) : JStr := s.map Char.toLower

/-- JavaScript `s.trim()`: strip whitespace from both ends. -/
def jsTrim (s : JStr) : JStr :=
  ((s.dropWhile Char.isWhitespace).reverse.dropWhile Char.isWhitespace).reverse

/-- JavaScript `s.startsWith(p)`. -/
def jsStartsWith (s p : JStr) : Bool := p.isPrefixOf s

/-- JavaScript `s.endsWith(p)`. -/
def jsEndsWith (s p : JStr) : Bool := p.isSuffixOf s

/-- JavaScript `s.split(sep)` for a single-character separator: split on
every occurrence, keeping empty fields (`"".split(',') = [""]`). -/
def splitOnChar (sep : Char) : JStr → List JStr
  | [] => [[]]
  | c :: rest =>
    match splitOnChar sep rest with
    | [] => [[c]]
    | h :: t => if c = sep then [] :: h :: t else (c :: h) :: t

/-- Decimal rendering of a number, as in a JS template literal. -/
def natToJStr (n : Nat) : JStr := (toString n).data

/-- The ambient execution context: whether `process.env` is reachable,
and the environment-variable table (`process.env`). -/
structure Env where
  isNode : Bool
  vars : List (JStr × JStr)

/-- Source `isNodeEnvironment()`: whether `process` and `process.env`
exist in the execution context. -/
def isNodeEnvironment (env : Env) : Bool := env.isNode

/-- Source `getEnvVar(name)`: `undefined` outside Node, otherwise
`process.env[name]`. -/
def getEnvVar (env : Env) (name : JStr) : Option JStr :=
  if !isNodeEnvironment env then none
  else env.vars.lookup name

/-- The two members of the WHATWG `URL` object the source reads:
`url.protocol` (scheme with trailing colon) and `url.hostname`. -/
structure UrlParts where
  protocol : JStr
  hostname : JStr
deriving DecidableEq

/-- Error conditions that escape the resolution functions: the
`TypeError` thrown by `new URL` on an unparseable target URL. -/
inductive ProxyError where
  | InvalidURL
deriving DecidableEq

/-- Value of the `NO_PROXY` / `no_proxy` lookup performed by
`shouldBypassProxy`: the variable `NO_PROXY`, or `no_proxy` when that
is falsy (the `getEnvVar` chain joined by ||). -/
def noProxyValue (env : Env) : Option JStr :=
  jsOr (getEnvVar env (str "NO_PROXY")) (getEnvVar env (str "no_proxy"))

/-- Body of the `for (const pattern of patterns)` loop of
`shouldBypassProxy`, for one pattern against the lower-cased hostname:
empty patterns are skipped (`if (!pattern) continue`), then
1. exact equality,
2. `pattern.startsWith('*')`: hostname ends with `pattern.substring(1)`,
3. otherwise `pattern.startsWith('.')`: hostname ends with the pattern,
4. unconditionally: hostname ends with `'.' + pattern`. -/
def bypassPatternMatches (normalizedHostname pattern : JStr) : Bool :=
  if pattern.isEmpty then false
  else
    let normalizedPattern := jsToLower pattern
    (normalizedHostname == normalizedPattern)
    || (if jsStartsWith normalizedPattern (str "*") then
          jsEndsWith normalizedHostname (normalizedPattern.drop 1)
        else if jsStartsWith normalizedPattern (str ".") then
          jsEndsWith normalizedHostname normalizedPattern
        else false)
    || jsEndsWith normalizedHostname (str "." ++ normalizedPattern)

/-- Source `shouldBypassProxy(hostname)`: read `NO_PROXY`/`no_proxy`;
`if (!noProxy) return false` (absent or empty); otherwise split on
commas, trim each entry, lower-case the hostname, and return whether
some pattern matches.  After the truthiness guard TypeScript narrows
`noProxy` to a string; the `Option.getD []` extraction mirrors that
narrowing (its default is unreachable past the guard). -/
def shouldBypassProxy (env : Env) (hostname : JStr) : Bool :=
  let noProxy := noProxyValue env
  if !jsTruthy noProxy then false
  else
    let patterns := (splitOnChar ',' (noProxy.getD [])).map jsTrim
    let normalizedHostname := jsToLower hostname
    patterns.any (bypassPatternMatches normalizedHostname)

/-- The parsed bypass list: the split-and-trimmed entries of the
`NO_PROXY`/`no_proxy` value.  Used to state claims about "the bypass
list contains a pattern". -/
def noProxyPatterns (env : Env) : List JStr :=
  (splitOnChar ',' ((noProxyValue env).getD [])).map jsTrim

/-- Source `getProxyFromEnvironment(targetUrl)`: outside Node return
`undefined`; parse the target URL (a parse failure escapes as
`InvalidURL`); if the hostname is bypassed return `undefined`;
otherwise dispatch on the lower-cased protocol: for `https:` the chain
`HTTPS_PROXY || https_proxy || HTTP_PROXY || http_proxy`, for `http:`
the chain `HTTP_PROXY || http_proxy`, else `undefined`. -/
def getProxyFromEnvironment (parse : JStr → Option UrlParts) (env : Env)
    (targetUrl : JStr) : Except ProxyError (Option JStr) :=
  if !isNodeEnvironment env then .ok none
  else
    match parse targetUrl with
    | none => .error .InvalidURL
    | some url =>
      let protocol := jsToLower url.protocol
      if shouldBypassProxy env url.hostname then .ok none
      else if protocol = str "https:" then
        .ok (jsOr (jsOr (jsOr (getEnvVar env (str "HTTPS_PROXY"))
                              (getEnvVar env (str "https_proxy")))
                        (getEnvVar env (str "HTTP_PROXY")))
                  (getEnvVar env (str "http_proxy")))
      else if protocol = str "http:" then
        .ok (jsOr (getEnvVar env (str "HTTP_PROXY"))
                  (getEnvVar env (str "http_proxy")))
      else .ok none

/-- The `ProxyConfig` object of `src/types.ts`: required host and port,
optional protocol and auth. -/
structure ProxyConfig where
  host : JStr
  port : Nat
  protocol : Option JStr
  auth : Option JStr

/-- Source `proxyConfigToUrl(config)`: the template literal
`protocol://auth host:port` where protocol is `config.protocol` when
truthy else "http", and auth is `config.auth` followed by an at sign
when truthy, else the empty string. -/
def proxyConfigToUrl (config : ProxyConfig) : JStr :=
  let protocol := if jsTruthy config.protocol then config.protocol.getD []
                  else str "http"
  let auth := if jsTruthy config.auth then config.auth.getD [] ++ str "@"
              else []
  protocol ++ str "://" ++ auth ++ config.host ++ str ":"
    ++ natToJStr config.port

/-- The caller-supplied proxy directive
(`proxyOption?: string | ProxyConfig | false`): `absent` is
`undefined` (parameter not provided), `disabled` is `false`,
`urlStr` a string, `structured` a non-null `ProxyConfig` object. -/
inductive ProxyOptionValue where
  | absent
  | disabled
  | urlStr (s : JStr)
  | structured (c : ProxyConfig)

/-- Source `resolveProxyUrl(targetUrl, proxyOption)`: `false` wins
(`undefined` result), a string is returned verbatim, an object goes
through `proxyConfigToUrl`, and only the absent case falls back to
`getProxyFromEnvironment(targetUrl)`. -/
def resolveProxyUrl (parse : JStr → Option UrlParts) (env : Env)
    (targetUrl : JStr) (proxyOption : ProxyOptionValue) :
    Except ProxyError (Option JStr) :=
  match proxyOption with
  | .disabled => .ok none
  | .urlStr s => .ok (some s)
  | .structured c => .ok (some (proxyConfigToUrl c))
  | .absent => getProxyFromEnvironment parse env targetUrl

/-- The two external effects inside the try block of
`createProxyAgent`: whether the awaited dynamic load of the "undici"
module resolves, and whether `new ProxyAgent(proxyUrl)` succeeds for a
given URL string. -/
structure UndiciWorld where
  undiciAvailable : Bool
  proxyAgentCtorOk : JStr → Bool

/-- The JavaScript exceptions that can be thrown inside the try block of
`createProxyAgent`. -/
inductive JsFailure where
  | loadFailed
  | ctorFailed
deriving DecidableEq

/-- The try block of `createProxyAgent`: destructure `ProxyAgent` from
the awaited dynamic import of the "undici" module, then
`return new ProxyAgent(proxyUrl)`.  The returned agent object is
represented by the proxy URL it is bound to. -/
def createProxyAgentTryBody (w : UndiciWorld) (proxyUrl : JStr) :
    Except JsFailure (Option JStr) :=
  if !w.undiciAvailable then .error .loadFailed
  else if w.proxyAgentCtorOk proxyUrl then .ok (some proxyUrl)
  else .error .ctorFailed

/-- How a call to `createProxyAgent` ends: either an exception escapes
to the caller (`raised`), or the promise resolves with an agent bound
to a proxy URL (`returned (some u)`) or with `undefined`
(`returned none`). -/
inductive AgentOutcome where
  | raised (e : JsFailure)
  | returned (agent : Option JStr)
deriving DecidableEq

/-- Result of a `createProxyAgent` call: its outcome plus whether the
`console.warn` diagnostic in the catch block was emitted. -/
structure AgentRun where
  outcome : AgentOutcome
  warned : Bool
deriving DecidableEq

/-- Source `createProxyAgent(proxyUrl)`: outside Node return
`undefined`; otherwise run the try block; the catch handler around the
whole block emits `console.warn(...)` and returns `undefined` for any
exception thrown inside it. -/
def createProxyAgent (w : UndiciWorld) (env : Env) (proxyUrl : JStr) :
    AgentRun :=
  if !isNodeEnvironment env then ⟨.returned none, false⟩
  else
    match createProxyAgentTryBody w proxyUrl with
    | .ok agent => ⟨.returned agent, false⟩
    | .error _ => ⟨.returned none, true⟩

/-- Claim-side rendering of "the first non-empty value in the list, or
none when no listed variable yields one": used to state the documented
strict priority order of the proxy environment variables. -/
def firstTruthy : List (Option JStr) → Option JStr
  | [] => none
  | v :: rest => if jsTruthy v then v else firstTruthy rest

/-- Concrete platform URL parser used by witnesses: parses the single
target URL they exercise the way the WHATWG parser does. -/
def parseW : JStr → Option UrlParts := fun u =>
  if u = str "https://api.example.com" then
    some ⟨str "https:", str "api.example.com"⟩
  else none

/-- Concrete platform URL parser for the unparseable-URL witnesses: a
platform on which the exercised string throws in `new URL`. -/
def parseNoneW : JStr → Option UrlParts := fun _ => none

/-- Witness environment: Node context with a wildcard bypass entry and
a proxy variable set. -/
def envBypassW : Env :=
  ⟨true, [(str "NO_PROXY", str "*.example.com"),
          (str "HTTPS_PROXY", str "http://proxy:3128")]⟩

/-- Witness environment: Node context with only `HTTPS_PROXY` set. -/
def envHttpsW : Env :=
  ⟨true, [(str "HTTPS_PROXY", str "http://proxy:3128")]⟩

theorem jsOr_chain4_eq_firstTruthy (a b c d : Option JStr)
    (h : (jsTruthy a = true ∨ jsTruthy b = true ∨ jsTruthy c = true ∨
          jsTruthy d = true) ∨
         (a = none ∧ b = none ∧ c = none ∧ d = none)) :
    jsOr (jsOr (jsOr a b) c) d = firstTruthy [a, b, c, d] := by
  cases ha : jsTruthy a with
  | true => simp [jsOr, firstTruthy, ha]
  | false =>
    cases hb : jsTruthy b with
    | true => simp [jsOr, firstTruthy, ha, hb]
    | false =>
      cases hc : jsTruthy c with
      | true => simp [jsOr, firstTruthy, ha, hb, hc]
      | false =>
        cases hd : jsTruthy d with
        | true => simp [jsOr, firstTruthy, ha, hb, hc, hd]
        | false =>
          rcases h with (h | h | h | h) | ⟨h1, h2, h3, h4⟩
          · rw [ha] at h; exact absurd h (by decide)
          · rw [hb] at h; exact absurd h (by decide)
          · rw [hc] at h; exact absurd h (by decide)
          · rw [hd] at h; exact absurd h (by decide)
          · subst h1; subst h2; subst h3; subst h4; rfl

theorem jsOr_chain2_eq_firstTruthy (a b : Option JStr)
    (h : (jsTruthy a = true ∨ jsTruthy b = true) ∨
         (a = none ∧ b = none)) :
    jsOr a b = firstTruthy [a, b] := by
  cases ha : jsTruthy a with
  | true => simp [jsOr, firstTruthy, ha]
  | false =>
    cases hb : jsTruthy b with
    | true => simp [jsOr, firstTruthy, ha, hb]
    | false =>
      rcases h with (h | h) | ⟨h1, h2⟩
      · rw [ha] at h; exact absurd h (by decide)
      · rw [hb] at h; exact absurd h (by decide)
      · subst h1; subst h2; rfl

theorem bypass_of_mem_pattern (env : Env) (h p : JStr)
    (hmem : p ∈ noProxyPatterns env)
    (hmatch : bypassPatternMatches (jsToLower h) p = true) :
    shouldBypassProxy env h = true := by
  unfold noProxyPatterns at hmem
  unfold shouldBypassProxy
  by_cases ht : jsTruthy (noProxyValue env) = true
  · simp only [ht, Bool.not_true, Bool.false_eq_true, if_false]
    exact List.any_eq_true.mpr ⟨p, hmem, hmatch⟩
  · exfalso
    have hfal : jsTruthy (noProxyValue env) = false :=
      Bool.eq_false_iff.mpr ht
    rcases hv : noProxyValue env with _ | s
    · rw [hv] at hmem
      have hp0 : p = [] := by simpa [splitOnChar, jsTrim] using hmem
      rw [hp0] at hmatch
      simp [bypassPatternMatches] at hmatch
    · rw [hv] at hfal
      have hs : s = [] := by
        cases s with
        | nil => rfl
        | cons a t => simp [jsTruthy, List.isEmpty] at hfal
      subst hs
      rw [hv] at hmem
      have hp0 : p = [] := by simpa [splitOnChar, jsTrim] using hmem
      rw [hp0] at hmatch
      simp [bypassPatternMatches] at hmatch

deriving instance DecidableEq for Except

/-- Claim C3: an explicit directive wins unconditionally: a URL-form
directive is returned verbatim and a structured directive is rendered
through `proxyConfigToUrl`, with neither the bypass list nor the proxy
environment variables consulted — two runs under different environment
states (and even different platform URL parsers or target URLs) return
the same value. -/
theorem c3_explicit_directive_ignores_env
    (parse1 parse2 : JStr → Option UrlParts) (env1 env2 : Env)
    (url1 url2 s : JStr) (c : ProxyConfig) :
    resolveProxyUrl parse1 env1 url1 (.urlStr s) = .ok (some s) ∧
    resolveProxyUrl parse1 env1 url1 (.structured c) =
      .ok (some (proxyConfigToUrl c)) ∧
    resolveProxyUrl parse1 env1 url1 (.urlStr s) =
      resolveProxyUrl parse2 env2 url2 (.urlStr s) ∧
    resolveProxyUrl parse1 env1 url1 (.structured c) =
      resolveProxyUrl parse2 env2 url2 (.structured c) :=
  ⟨rfl, rfl, rfl, rfl⟩

/-- Claim C4: a disabled directive (`proxy: false`) yields no proxy for
every target URL, every environment state and every platform URL
parser. -/
theorem c4_disabled_directive_yields_none
    (parse : JStr → Option UrlParts) (env : Env) (url : JStr) :
    resolveProxyUrl parse env url .disabled = .ok none :=
  rfl

/-- Claim C10: for every target URL string (parseable or not) and every
non-absent directive, `resolveProxyUrl` returns a value and never
raises; only the absent-directive path delegates to
`getProxyFromEnvironment`, the sole place the target URL is parsed and
an `InvalidURL` failure can arise. -/
theorem c10_non_absent_directive_never_errors
    (parse : JStr → Option UrlParts) (env : Env) (url s : JStr)
    (c : ProxyConfig) :
    resolveProxyUrl parse env url .disabled = .ok none ∧
    resolveProxyUrl parse env url (.urlStr s) = .ok (some s) ∧
    resolveProxyUrl parse env url (.structured c) =
      .ok (some (proxyConfigToUrl c)) ∧
    resolveProxyUrl parse env url .absent =
      getProxyFromEnvironment parse env url :=
  ⟨rfl, rfl, rfl, rfl⟩

/-- Claim C8: `proxyConfigToUrl` is pure formatting
`protocol://[auth@]host:port`: the protocol defaults to "http" when
omitted, the auth segment with its trailing at sign appears exactly
when auth is present, and the two documented examples hold. -/
theorem c8_proxy_config_to_url_format (h : JStr) (p : Nat) (pr a : JStr)
    (hpr : pr ≠ []) (ha : a ≠ []) :
    proxyConfigToUrl ⟨h, p, none, none⟩ =
      str "http" ++ str "://" ++ h ++ str ":" ++ natToJStr p ∧
    proxyConfigToUrl ⟨h, p, some pr, some a⟩ =
      pr ++ str "://" ++ a ++ str "@" ++ h ++ str ":" ++ natToJStr p ∧
    proxyConfigToUrl ⟨str "p", 8080, none, none⟩ = str "http://p:8080" ∧
    proxyConfigToUrl ⟨str "p", 8080, some (str "https"), some (str "u:x")⟩ =
      str "https://u:x@p:8080" := by
  have hpre : pr.isEmpty = false := by
    cases pr with
    | nil => exact absurd rfl hpr
    | cons x t => rfl
  have hae : a.isEmpty = false := by
    cases a with
    | nil => exact absurd rfl ha
    | cons x t => rfl
  refine ⟨?_, ?_, by decide, by decide⟩
  · simp [proxyConfigToUrl, jsTruthy]
  · simp [proxyConfigToUrl, jsTruthy, hpre, hae, List.append_assoc]

/-- Witness for C8 at a concrete config. -/
theorem c8_proxy_config_to_url_format_witness :
    str "https" ≠ ([] : JStr) ∧
    proxyConfigToUrl ⟨str "p", 8080, none, none⟩ = str "http://p:8080" :=
  ⟨by decide,
   (c8_proxy_config_to_url_format (str "p") 8080 (str "https") (str "u:x")
      (by decide) (by decide)).2.2.1⟩

/-- Claim C5: whenever the target URL parses and its hostname is
bypassed by `shouldBypassProxy`, `getProxyFromEnvironment` (and hence
`resolveProxyUrl` with an absent directive) yields no proxy, whatever
proxy environment variables are set: the bypass check precedes and
short-circuits the protocol-specific variable lookup. -/
theorem c5_bypass_short_circuits_env_lookup
    (parse : JStr → Option UrlParts) (env : Env) (url : JStr)
    (parts : UrlParts) (hp : parse url = some parts)
    (hb : shouldBypassProxy env parts.hostname = true) :
    getProxyFromEnvironment parse env url = .ok none ∧
    resolveProxyUrl parse env url .absent = .ok none := by
  have hg : getProxyFromEnvironment parse env url = .ok none := by
    by_cases hn : env.isNode = true
    · simp [getProxyFromEnvironment, isNodeEnvironment, hn, hp, hb]
    · simp [getProxyFromEnvironment, isNodeEnvironment,
        Bool.eq_false_iff.mpr hn]
  exact ⟨hg, hg⟩

/-- Witness for C5: `NO_PROXY=*.example.com`, target host
`api.example.com`, `HTTPS_PROXY` set — the result is still none. -/
theorem c5_bypass_short_circuits_env_lookup_witness :
    parseW (str "https://api.example.com") =
      some ⟨str "https:", str "api.example.com"⟩ ∧
    shouldBypassProxy envBypassW (str "api.example.com") = true ∧
    getProxyFromEnvironment parseW envBypassW
      (str "https://api.example.com") = .ok none :=
  ⟨by decide, by decide,
   (c5_bypass_short_circuits_env_lookup parseW envBypassW
      (str "https://api.example.com") ⟨str "https:", str "api.example.com"⟩
      (by decide) (by decide)).1⟩

/-- Claim C7 counterexample: in a non-Node execution context (the
environment state cannot be resolved), an unparseable target URL does
not surface `InvalidURL`: `getProxyFromEnvironment` — and
`resolveProxyUrl` with an absent directive — returns none before ever
parsing, contradicting the claim that a parse failure is never
converted into a none result. -/
theorem c7_counterexample :
    parseNoneW (str "http://[") = none ∧
    getProxyFromEnvironment parseNoneW ⟨false, []⟩ (str "http://[") =
      .ok none ∧
    resolveProxyUrl parseNoneW ⟨false, []⟩ (str "http://[") .absent =
      .ok none ∧
    getProxyFromEnvironment parseNoneW ⟨false, []⟩ (str "http://[") ≠
      .error .InvalidURL :=
  ⟨rfl, rfl, rfl, by decide⟩

/-- Claim C7 (amended): in a Node execution context, when the target
URL fails to parse, `getProxyFromEnvironment` (and `resolveProxyUrl`
with an absent directive) fails with `InvalidURL`, propagated to the
caller; outside Node it returns none without attempting the parse. -/
theorem c7_invalid_url_propagates_amended
    (parse : JStr → Option UrlParts) (env : Env) (url : JStr)
    (hn : env.isNode = true) (hp : parse url = none) :
    getProxyFromEnvironment parse env url = .error .InvalidURL ∧
    resolveProxyUrl parse env url .absent = .error .InvalidURL := by
  have hg : getProxyFromEnvironment parse env url = .error .InvalidURL := by
    simp [getProxyFromEnvironment, isNodeEnvironment, hn, hp]
  exact ⟨hg, hg⟩

/-- Witness for the amended C7 at a concrete unparseable URL. -/
theorem c7_invalid_url_propagates_amended_witness :
    getProxyFromEnvironment parseNoneW ⟨true, []⟩ (str "http://[") =
      .error .InvalidURL :=
  (c7_invalid_url_propagates_amended parseNoneW ⟨true, []⟩
    (str "http://[") rfl rfl).1

/-- Claim C9: `createProxyAgent` returns none rather than failing in
both no-capability situations: outside Node it returns none at entry
(no diagnostic), and when the deferred load of the capability fails it
emits the warning diagnostic and returns none instead of propagating
the failure. -/
theorem c9_no_capability_returns_none (w : UndiciWorld) (env : Env)
    (proxyUrl : JStr) :
    (env.isNode = false →
      createProxyAgent w env proxyUrl = ⟨.returned none, false⟩) ∧
    (env.isNode = true → w.undiciAvailable = false →
      createProxyAgent w env proxyUrl = ⟨.returned none, true⟩) := by
  constructor
  · intro hn
    simp [createProxyAgent, isNodeEnvironment, hn]
  · intro hn hu
    simp [createProxyAgent, createProxyAgentTryBody, isNodeEnvironment,
      hn, hu]

/-- Witness for C9: both no-capability situations at concrete inputs. -/
theorem c9_no_capability_returns_none_witness :
    createProxyAgent ⟨true, fun _ => true⟩ ⟨false, []⟩ (str "http://p:1") =
      ⟨.returned none, false⟩ ∧
    createProxyAgent ⟨false, fun _ => true⟩ ⟨true, []⟩ (str "http://p:1") =
      ⟨.returned none, true⟩ :=
  ⟨(c9_no_capability_returns_none ⟨true, fun _ => true⟩ ⟨false, []⟩
      (str "http://p:1")).1 rfl,
   (c9_no_capability_returns_none ⟨false, fun _ => true⟩ ⟨true, []⟩
      (str "http://p:1")).2 rfl rfl⟩

/-- Claim C2 counterexample: in a world where the capability load
succeeds but constructing the agent from the proxy URL fails, the
construction failure does not propagate: the catch handler around the
whole try block absorbs it, emits the warning and resolves with none. -/
theorem c2_counterexample :
    (UndiciWorld.mk true fun _ => false).undiciAvailable = true ∧
    (UndiciWorld.mk true fun _ => false).proxyAgentCtorOk
      (str "http://proxy:8080") = false ∧
    createProxyAgentTryBody (UndiciWorld.mk true fun _ => false)
      (str "http://proxy:8080") = .error .ctorFailed ∧
    createProxyAgent (UndiciWorld.mk true fun _ => false) ⟨true, []⟩
      (str "http://proxy:8080") = ⟨AgentOutcome.returned none, true⟩ ∧
    (createProxyAgent (UndiciWorld.mk true fun _ => false) ⟨true, []⟩
      (str "http://proxy:8080")).outcome ≠
      AgentOutcome.raised JsFailure.ctorFailed :=
  ⟨rfl, rfl, rfl, rfl, by decide⟩

/-- Claim C2 (amended): when the capability load succeeds but the
construction of the agent from the proxy URL fails, the failure is
caught by the same handler as a load failure: the warning diagnostic
is emitted and the call resolves with none instead of propagating an
`InvalidProxyURL` condition. -/
theorem c2_ctor_failure_absorbed (w : UndiciWorld) (env : Env)
    (proxyUrl : JStr) (hn : env.isNode = true)
    (hload : w.undiciAvailable = true)
    (hctor : w.proxyAgentCtorOk proxyUrl = false) :
    createProxyAgent w env proxyUrl = ⟨.returned none, true⟩ := by
  simp [createProxyAgent, createProxyAgentTryBody, isNodeEnvironment,
    hn, hload, hctor]

/-- Witness for the amended C2 at a concrete input. -/
theorem c2_ctor_failure_absorbed_witness :
    createProxyAgent ⟨true, fun _ => false⟩ ⟨true, []⟩ (str "http://bad") =
      ⟨.returned none, true⟩ :=
  c2_ctor_failure_absorbed ⟨true, fun _ => false⟩ ⟨true, []⟩
    (str "http://bad") rfl rfl rfl

/-- Claim C1 counterexample: with bypass list exactly `*.example.com`,
the hostname `example.com` ends with `example.com` (it equals the bare
domain), yet `shouldBypassProxy` returns false: stripping only the `*`
leaves the suffix `.example.com`, which the bare domain does not end
with, so the wildcard pattern does not match the bare domain. -/
theorem c1_counterexample :
    str "*.example.com" ∈
      noProxyPatterns ⟨true, [(str "NO_PROXY", str "*.example.com")]⟩ ∧
    jsEndsWith (str "example.com") (str "example.com") = true ∧
    shouldBypassProxy ⟨true, [(str "NO_PROXY", str "*.example.com")]⟩
      (str "example.com") = false :=
  ⟨by decide, by decide, by decide⟩

/-- Claim C1 (amended): if the bypass list contains a pattern whose
lower-cased form is `*.D`, then `shouldBypassProxy H` returns true
whenever the lower-cased hostname ends with `.D` — that is, for proper
subdomains of `D`; the bare domain `H = D` itself does not match the
wildcard pattern, because only the leading `*` is stripped and the
remaining required suffix keeps its leading dot. -/
theorem c1_wildcard_bypass_amended (env : Env) (h p D : JStr)
    (hmem : p ∈ noProxyPatterns env)
    (hlow : jsToLower p = str "*." ++ D)
    (hend : jsEndsWith (jsToLower h) (str "." ++ D) = true) :
    shouldBypassProxy env h = true := by
  apply bypass_of_mem_pattern env h p hmem
  have hlow2 : jsToLower p = '*' :: '.' :: D := hlow
  have hend2 : jsEndsWith (jsToLower h) ('.' :: D) = true := hend
  have hpe : p.isEmpty = false := by
    cases p with
    | nil => simp [jsToLower] at hlow2
    | cons a t => rfl
  have hstar : jsStartsWith ('*' :: '.' :: D) (str "*") = true := by
    have hone : str "*" = ['*'] := rfl
    rw [jsStartsWith, hone]
    simp [List.isPrefixOf]
  have hdrop : List.drop 1 ('*' :: '.' :: D) = '.' :: D := rfl
  simp only [bypassPatternMatches, hpe, hlow2, hstar, hdrop,
    Bool.false_eq_true, if_false, if_true, hend2, Bool.or_true,
    Bool.true_or]

/-- Witness for the amended C1: `*.example.com` bypasses the proper
subdomain `api.example.com`. -/
theorem c1_wildcard_bypass_amended_witness :
    str "*.example.com" ∈ noProxyPatterns envBypassW ∧
    jsToLower (str "*.example.com") = str "*." ++ str "example.com" ∧
    jsEndsWith (jsToLower (str "api.example.com"))
      (str "." ++ str "example.com") = true ∧
    shouldBypassProxy envBypassW (str "api.example.com") = true :=
  ⟨by decide, by decide, by decide,
   c1_wildcard_bypass_amended envBypassW (str "api.example.com")
     (str "*.example.com") (str "example.com")
     (by decide) (by decide) (by decide)⟩

/-- Claim C6: for a parseable, non-bypassed target URL the
protocol-specific lookup follows the documented strict priority: an
https target takes the first non-empty value of `HTTPS_PROXY`,
`https_proxy`, `HTTP_PROXY`, `http_proxy` in that order (so upper-case
wins when both letter-cases are set), an http target checks only
`HTTP_PROXY` then `http_proxy`, any other scheme yields none, and when
no listed variable is set the result is none. -/
theorem c6_env_variable_priority
    (parse : JStr → Option UrlParts) (env : Env) (url : JStr)
    (parts : UrlParts) (hp : parse url = some parts)
    (hb : shouldBypassProxy env parts.hostname = false) :
    (jsToLower parts.protocol = str "https:" →
      ((jsTruthy (getEnvVar env (str "HTTPS_PROXY")) = true ∨
        jsTruthy (getEnvVar env (str "https_proxy")) = true ∨
        jsTruthy (getEnvVar env (str "HTTP_PROXY")) = true ∨
        jsTruthy (getEnvVar env (str "http_proxy")) = true) ∨
       (getEnvVar env (str "HTTPS_PROXY") = none ∧
        getEnvVar env (str "https_proxy") = none ∧
        getEnvVar env (str "HTTP_PROXY") = none ∧
        getEnvVar env (str "http_proxy") = none)) →
      getProxyFromEnvironment parse env url =
        .ok (firstTruthy
          [getEnvVar env (str "HTTPS_PROXY"),
           getEnvVar env (str "https_proxy"),
           getEnvVar env (str "HTTP_PROXY"),
           getEnvVar env (str "http_proxy")])) ∧
    (jsToLower parts.protocol = str "http:" →
      ((jsTruthy (getEnvVar env (str "HTTP_PROXY")) = true ∨
        jsTruthy (getEnvVar env (str "http_proxy")) = true) ∨
       (getEnvVar env (str "HTTP_PROXY") = none ∧
        getEnvVar env (str "http_proxy") = none)) →
      getProxyFromEnvironment parse env url =
        .ok (firstTruthy
          [getEnvVar env (str "HTTP_PROXY"),
           getEnvVar env (str "http_proxy")])) ∧
    (jsToLower parts.protocol ≠ str "https:" →
      jsToLower parts.protocol ≠ str "http:" →
      getProxyFromEnvironment parse env url = .ok none) := by
  by_cases hn : env.isNode = true
  · have hun : getProxyFromEnvironment parse env url =
        (if jsToLower parts.protocol = str "https:" then
          .ok (jsOr (jsOr (jsOr (getEnvVar env (str "HTTPS_PROXY"))
                                (getEnvVar env (str "https_proxy")))
                          (getEnvVar env (str "HTTP_PROXY")))
                    (getEnvVar env (str "http_proxy")))
        else if jsToLower parts.protocol = str "http:" then
          .ok (jsOr (getEnvVar env (str "HTTP_PROXY"))
                    (getEnvVar env (str "http_proxy")))
        else .ok none) := by
      simp only [getProxyFromEnvironment, isNodeEnvironment, hn,
        Bool.not_true, Bool.false_eq_true, if_false, hp, hb]
    refine ⟨fun hs hcase => ?_, fun hs hcase => ?_, fun h1 h2 => ?_⟩
    · rw [hun, if_pos hs]
      exact congrArg Except.ok
        (jsOr_chain4_eq_firstTruthy _ _ _ _ hcase)
    · rw [hun, if_neg (by rw [hs]; decide), if_pos hs]
      exact congrArg Except.ok
        (jsOr_chain2_eq_firstTruthy _ _ hcase)
    · rw [hun, if_neg h1, if_neg h2]
  · have hnf : env.isNode = false := Bool.eq_false_iff.mpr hn
    have hvn : ∀ n, getEnvVar env n = none := fun n => by
      simp [getEnvVar, isNodeEnvironment, hnf]
    have hg : getProxyFromEnvironment parse env url = .ok none := by
      simp [getProxyFromEnvironment, isNodeEnvironment, hnf]
    refine ⟨fun hs hcase => ?_, fun hs hcase => ?_, fun h1 h2 => hg⟩
    · rw [hg, hvn, hvn, hvn, hvn]; rfl
    · rw [hg, hvn, hvn]; rfl

/-- Witness for C6: target `https://api.example.com`, directive
absent, `HTTPS_PROXY=http://proxy:3128`, no bypass — resolves to the
first (and only) non-empty variable. -/
theorem c6_env_variable_priority_witness :
    getProxyFromEnvironment parseW envHttpsW
      (str "https://api.example.com") =
      .ok (firstTruthy
        [getEnvVar envHttpsW (str "HTTPS_PROXY"),
         getEnvVar envHttpsW (str "https_proxy"),
         getEnvVar envHttpsW (str "HTTP_PROXY"),
         getEnvVar envHttpsW (str "http_proxy")]) ∧
    firstTruthy
        [getEnvVar envHttpsW (str "HTTPS_PROXY"),
         getEnvVar envHttpsW (str "https_proxy"),
         getEnvVar envHttpsW (str "HTTP_PROXY"),
         getEnvVar envHttpsW (str "http_proxy")] =
      some (str "http://proxy:3128") :=
  ⟨(c6_env_variable_priority parseW envHttpsW
      (str "https://api.example.com")
      ⟨str "https:", str "api.example.com"⟩ (by decide) (by decide)).1
      (by decide) (Or.inl (Or.inl (by decide))),
   by decide⟩
